import Mathlib

/-!
A shallow embedding of the BFD session engine from `proto/bfd/bfd.c` of the
BIRD routing daemon, together with theorems about its state machine, timer
control, poll sequence, and request-notification broker.

Machine integers: all interval fields are `u32` microseconds in the source.
Every arithmetic operation performed on them here (`MAX`, and subtractions of
the form `x - x/4`, `x - x/10`, and `(x - x/10) - (x - x/4)`) stays within
`[0, 2^32)` for `u32` inputs, so they are modelled exactly by `Nat` with
truncating division and truncated subtraction, with no wraparound involved.
The detection timeout product is computed in `btime` (signed 64-bit) in the
source and `u32 * u8` fits, so it is also exact as `Nat`.
-/

namespace BFD

/-- BFD session states (RFC 5880), matching the order of the
`bfd_state_names` array in `bfd.c`. -/
def BFD_STATE_ADMIN_DOWN : Nat := 0

def BFD_STATE_DOWN : Nat := 1

def BFD_STATE_INIT : Nat := 2

def BFD_STATE_UP : Nat := 3

/-- Diagnostic codes, matching the designated indices of `bfd_diag_names`. -/
def BFD_DIAG_NOTHING : Nat := 0

def BFD_DIAG_TIMEOUT : Nat := 1

def BFD_DIAG_NEIGHBOR_DOWN : Nat := 3

/-- Poll-sequence bits over {TX-change, RX-change} (`u8` masks). -/
def BFD_POLL_TX : Nat := 1

def BFD_POLL_RX : Nat := 2

/-- Control packet flag bits (RFC 5880 byte 1). -/
def BFD_FLAG_POLL : Nat := 0x20

def BFD_FLAG_FINAL : Nat := 0x10

/-- Modelled from the spec: the generic microsecond timer of the event-loop
library (`lib/timer.h`, not among the sources).  Every outstanding timer is
backed by a deadline; a timer is armed iff its deadline `expires` is nonzero,
which is what `tm_active` tests. -/
structure Timer where
  expires : Nat
  recurrent : Nat
  randomize : Nat
deriving Repr, DecidableEq

/-- Modelled from the spec: `tm_active` — the timer is armed. -/
def tm_active (t : Timer) : Bool :=
  t.expires ≠ 0

/-- Modelled from the spec: `tm_stop` — disarm the timer. -/
def tm_stop (t : Timer) : Timer :=
  { t with expires := 0 }

/-- Modelled from the spec: `tm_set` — arm the timer to fire at an absolute
time. -/
def tm_set (t : Timer) (w : Nat) : Timer :=
  { t with expires := w }

/-- Modelled from the spec: `tm_start t now after` — arm the timer to fire
`after` microseconds from the current time `now`. -/
def tm_start (t : Timer) (now after : Nat) : Timer :=
  tm_set t (now + after)

/-- Per-request interval/mode options (`struct bfd_options`); zero means
"unset" for the interval and multiplier fields, `passive_set` is the explicit
"set" bit for `passive`. -/
structure BfdOptions where
  min_rx_int : Nat
  min_tx_int : Nat
  idle_tx_int : Nat
  multiplier : Nat
  passive : Bool
  passive_set : Bool
  auth_type : Nat
deriving Repr, DecidableEq

/-- Interface-level configuration (`struct bfd_iface_config`), the fields
read by `bfd_merge_options`. -/
structure IfaceConfig where
  min_rx_int : Nat
  min_tx_int : Nat
  idle_tx_int : Nat
  multiplier : Nat
  passive : Bool
  auth_type : Nat
deriving Repr, DecidableEq

/-- Effective per-session configuration (`struct bfd_session_config`). -/
structure SessionConfig where
  min_rx_int : Nat
  min_tx_int : Nat
  idle_tx_int : Nat
  multiplier : Nat
  passive : Bool
  auth_type : Nat
deriving Repr, DecidableEq

/-- `bfd_merge_options`: per-request options override interface config
field-by-field, where "unset" for numeric fields is zero and for `passive`
is the explicit `passive_set` bit. -/
def bfd_merge_options (cf : IfaceConfig) (opts : BfdOptions) : SessionConfig :=
  { min_rx_int := if opts.min_rx_int ≠ 0 then opts.min_rx_int else cf.min_rx_int
    min_tx_int := if opts.min_tx_int ≠ 0 then opts.min_tx_int else cf.min_tx_int
    idle_tx_int := if opts.idle_tx_int ≠ 0 then opts.idle_tx_int else cf.idle_tx_int
    multiplier := if opts.multiplier ≠ 0 then opts.multiplier else cf.multiplier
    passive := if opts.passive_set then opts.passive else cf.passive
    auth_type := if opts.auth_type ≠ 0 then opts.auth_type else cf.auth_type }

/-- The fields of `struct bfd_session` that the session state machine reads
and writes in `bfd.c`.  `notify_pending` models `NODE_VALID(&s->n)`, i.e.
whether the session is linked on the engine's notify list.  Identity fields
(address, discriminators' hash linkage) and the authentication CSN values,
which the functions below never read, are omitted; `rx_csn_known` is kept
because the timeout handler clears it. -/
structure Session where
  loc_state : Nat
  loc_diag : Nat
  last_state_change : Nat
  rem_state : Nat
  rem_id : Nat
  rem_min_tx_int : Nat
  rem_min_rx_int : Nat
  rem_demand_mode : Bool
  rem_detect_mult : Nat
  rx_csn_known : Bool
  des_min_tx_int : Nat
  des_min_tx_new : Nat
  req_min_rx_int : Nat
  req_min_rx_new : Nat
  poll_active : Nat
  poll_scheduled : Nat
  passive : Bool
  detect_mult : Nat
  last_tx : Nat
  last_rx : Nat
  tx_timer : Timer
  hold_timer : Timer
  notify_pending : Bool
  cf : SessionConfig
deriving Repr, DecidableEq

/-- `bfd_session_update_tx_interval`: recompute the randomized TX interval
`T = MAX(des_min_tx_int, rem_min_rx_int)` with base `T - T/4` (75 %) and top
`T - T/10` (90 %), and re-set the TX timer relative to the last TX event
(skipped when there was no previous event, `last_tx == 0`). -/
def bfd_session_update_tx_interval (s : Session) : Session :=
  let tx_int := max s.des_min_tx_int s.rem_min_rx_int
  let tx_int_l := tx_int - tx_int / 4
  let tx_int_h := tx_int - tx_int / 10
  let t := { s.tx_timer with recurrent := tx_int_l, randomize := tx_int_h - tx_int_l }
  if s.last_tx = 0 then
    { s with tx_timer := t }
  else
    { s with tx_timer := tm_set t (s.last_tx + tx_int_l) }

/-- `bfd_session_update_detection_time`: arm the hold timer at
`last_rx + MAX(req_min_rx_int, rem_min_tx_int) * rem_detect_mult`; with
`kick` the last-RX stamp is first refreshed to the current time. -/
def bfd_session_update_detection_time (s : Session) (now : Nat) (kick : Bool) : Session :=
  let timeout := max s.req_min_rx_int s.rem_min_tx_int * s.rem_detect_mult
  let s := if kick then { s with last_rx := now } else s
  if s.last_rx = 0 then
    s
  else
    { s with hold_timer := tm_set s.hold_timer (s.last_rx + timeout) }

/-- `bfd_session_control_tx_timer`: stop the TX timer when the session is
passive with unknown remote id, when confirmed remote demand mode applies
(both ends Up, no poll in flight), or when `rem_min_rx_int == 0`; otherwise
make sure it runs, restarting it from now when `reset` is set or it was not
armed. -/
def bfd_session_control_tx_timer (s : Session) (now : Nat) (reset : Bool) : Session :=
  if (s.passive ∧ s.rem_id = 0)
      ∨ (s.rem_demand_mode ∧ s.poll_active = 0
          ∧ s.loc_state = BFD_STATE_UP ∧ s.rem_state = BFD_STATE_UP)
      ∨ s.rem_min_rx_int = 0 then
    { s with tx_timer := tm_stop s.tx_timer, last_tx := 0 }
  else if reset ∨ ¬ tm_active s.tx_timer then
    { s with last_tx := 0, tx_timer := tm_start s.tx_timer now 0 }
  else
    s

/-- `bfd_session_request_poll`: record a poll request; suppressed entirely
when `rem_id == 0`.  When no poll is active the scheduled bits become the
active poll and the TX timer is reset. -/
def bfd_session_request_poll (s : Session) (now : Nat) (request : Nat) : Session :=
  if s.rem_id = 0 then
    s
  else
    let s := { s with poll_scheduled := s.poll_scheduled ||| request }
    if s.poll_active ≠ 0 then
      s
    else
      let s := { s with poll_active := s.poll_scheduled, poll_scheduled := 0 }
      bfd_session_control_tx_timer s now true

/-- `bfd_session_terminate_poll`: commit the stashed interval values for the
bits of `poll_active` not also in `poll_scheduled` (the source computes
`poll_active & ~poll_scheduled` on `u8`; XOR with 255 is that complement for
the byte-sized masks used), then move the scheduled bits into a fresh active
poll.  Timers are updated by the caller, `bfd_session_process_ctl`. -/
def bfd_session_terminate_poll (s : Session) : Session :=
  let poll_done := s.poll_active &&& (255 ^^^ s.poll_scheduled)
  let s := if poll_done &&& BFD_POLL_TX ≠ 0 then { s with des_min_tx_int := s.des_min_tx_new } else s
  let s := if poll_done &&& BFD_POLL_RX ≠ 0 then { s with req_min_rx_int := s.req_min_rx_new } else s
  { s with poll_active := s.poll_scheduled, poll_scheduled := 0 }

/-- `bfd_session_set_min_tx`: stash a new desired TX interval; apply it
immediately unless it is an increase while the session is Up (then the poll
commit applies it), and request a TX poll. -/
def bfd_session_set_min_tx (s : Session) (now : Nat) (val : Nat) : Session :=
  if val = s.des_min_tx_new then
    s
  else
    let s := { s with des_min_tx_new := val }
    let s :=
      if s.loc_state ≠ BFD_STATE_UP ∨ val < s.des_min_tx_int then
        bfd_session_update_tx_interval { s with des_min_tx_int := val }
      else
        s
    bfd_session_request_poll s now BFD_POLL_TX

/-- `bfd_session_set_min_rx`: stash a new required RX interval; apply it
immediately unless it is a decrease while the session is Up (then the poll
commit applies it), and request an RX poll. -/
def bfd_session_set_min_rx (s : Session) (now : Nat) (val : Nat) : Session :=
  if val = s.req_min_rx_new then
    s
  else
    let s := { s with req_min_rx_new := val }
    let s :=
      if s.loc_state ≠ BFD_STATE_UP ∨ val > s.req_min_rx_int then
        bfd_session_update_detection_time { s with req_min_rx_int := val } now false
      else
        s
    bfd_session_request_poll s now BFD_POLL_RX

/-- `bfd_session_update_state`: publish a state change (state, diagnostic,
timestamp, notify-list linkage), and perform the idle/active TX interval swap
when the transition is to or from Up. -/
def bfd_session_update_state (s : Session) (now state diag : Nat) : Session :=
  let old_state := s.loc_state
  if state = old_state then
    s
  else
    let s := { s with loc_state := state, loc_diag := diag,
                      last_state_change := now, notify_pending := true }
    let s := if state = BFD_STATE_UP then bfd_session_set_min_tx s now s.cf.min_tx_int else s
    let s := if old_state = BFD_STATE_UP then bfd_session_set_min_tx s now s.cf.idle_tx_int else s
    s

/-- Modelled from the spec: `bfd_send_ctl` (in `packets.c`, not among the
sources) encodes and transmits one control packet; it does not modify any of
the session fields tracked here. -/
def bfd_send_ctl (s : Session) (_final : Bool) : Session :=
  s

/-- `bfd_session_process_ctl`: handle one validated control packet whose
remote-side fields have already been copied into the session.  Terminate an
active poll on the Final flag, refresh the TX interval if it changed, kick
the detection time, run the state-machine switch (returning early in
AdminDown), re-control the TX timer and answer a Poll flag with a Final
packet. -/
def bfd_session_process_ctl (s : Session) (now flags old_tx_int old_rx_int : Nat) : Session :=
  let s1 := if s.poll_active ≠ 0 ∧ flags &&& BFD_FLAG_FINAL ≠ 0
            then bfd_session_terminate_poll s else s
  let s2 := if s1.des_min_tx_int ≠ old_tx_int ∨ s1.rem_min_rx_int ≠ old_rx_int
            then bfd_session_update_tx_interval s1 else s1
  let s3 := bfd_session_update_detection_time s2 now true
  if s3.loc_state = BFD_STATE_ADMIN_DOWN then
    s3
  else
    let nd : Nat × Nat :=
      if s3.loc_state = BFD_STATE_DOWN then
        if s3.rem_state = BFD_STATE_DOWN then (BFD_STATE_INIT, BFD_DIAG_NOTHING)
        else if s3.rem_state = BFD_STATE_INIT then (BFD_STATE_UP, BFD_DIAG_NOTHING)
        else (0, BFD_DIAG_NOTHING)
      else if s3.loc_state = BFD_STATE_INIT then
        if s3.rem_state = BFD_STATE_ADMIN_DOWN then (BFD_STATE_DOWN, BFD_DIAG_NEIGHBOR_DOWN)
        else if BFD_STATE_INIT ≤ s3.rem_state then (BFD_STATE_UP, BFD_DIAG_NOTHING)
        else (0, BFD_DIAG_NOTHING)
      else if s3.loc_state = BFD_STATE_UP then
        if s3.rem_state ≤ BFD_STATE_DOWN then (BFD_STATE_DOWN, BFD_DIAG_NEIGHBOR_DOWN)
        else (0, BFD_DIAG_NOTHING)
      else (0, BFD_DIAG_NOTHING)
    let s4 := if nd.1 ≠ 0 then bfd_session_update_state s3 now nd.1 nd.2 else s3
    let s5 := bfd_session_control_tx_timer s4 now false
    if flags &&& BFD_FLAG_POLL ≠ 0 then bfd_send_ctl s5 true else s5

/-- `bfd_session_timeout`: the detection timer fired — zero the remote
fields (forcing `rem_min_rx_int = 1`), drop any poll, go Down with the
"Time expired" diagnostic, and reset the TX timer. -/
def bfd_session_timeout (s : Session) (now : Nat) : Session :=
  let s := { s with rem_state := BFD_STATE_DOWN, rem_id := 0,
                    rem_min_tx_int := 0, rem_min_rx_int := 1,
                    rem_demand_mode := false, rem_detect_mult := 0,
                    rx_csn_known := false, poll_active := 0, poll_scheduled := 0 }
  let s := bfd_session_update_state s now BFD_STATE_DOWN BFD_DIAG_TIMEOUT
  bfd_session_control_tx_timer s now true

/-- `bfd_tx_timer_hook`: record the TX timestamp and transmit. -/
def bfd_tx_timer_hook (s : Session) (now : Nat) : Session :=
  bfd_send_ctl { s with last_tx := now } false

/-- `bfd_hold_timer_hook` just forwards to `bfd_session_timeout`. -/
def bfd_hold_timer_hook (s : Session) (now : Nat) : Session :=
  bfd_session_timeout s now

/-- `bfd_add_session` (the session-initialization part): a zero-filled
session from the slab, RFC 5880 6.8.1 initial state variables, initial timer
computation and the initial state-change timestamp. -/
def bfd_add_session (now : Nat) (icf : IfaceConfig) (opts : BfdOptions) : Session :=
  let cf := bfd_merge_options icf opts
  let s : Session :=
    { loc_state := BFD_STATE_DOWN, loc_diag := 0, last_state_change := 0
      rem_state := BFD_STATE_DOWN, rem_id := 0, rem_min_tx_int := 0
      rem_min_rx_int := 1, rem_demand_mode := false, rem_detect_mult := 0
      rx_csn_known := false
      des_min_tx_int := cf.idle_tx_int, des_min_tx_new := cf.idle_tx_int
      req_min_rx_int := cf.min_rx_int, req_min_rx_new := cf.min_rx_int
      poll_active := 0, poll_scheduled := 0
      passive := cf.passive, detect_mult := cf.multiplier
      last_tx := 0, last_rx := 0
      tx_timer := ⟨0, 0, 0⟩, hold_timer := ⟨0, 0, 0⟩
      notify_pending := false, cf := cf }
  let s := bfd_session_update_tx_interval s
  let s := bfd_session_control_tx_timer s now true
  { s with last_state_change := now }

/-- `bfd_reconfigure_session` (the part guarded by a non-empty request
list): re-merge the options of the head request, apply the interval setters,
take over multiplier and passivity, and re-control the TX timer. -/
def bfd_reconfigure_session (s : Session) (now : Nat) (icf : IfaceConfig) (opts : BfdOptions) : Session :=
  let s := { s with cf := bfd_merge_options icf opts }
  let tx := if s.loc_state = BFD_STATE_UP then s.cf.min_tx_int else s.cf.idle_tx_int
  let s := bfd_session_set_min_tx s now tx
  let s := bfd_session_set_min_rx s now s.cf.min_rx_int
  let s := { s with detect_mult := s.cf.multiplier, passive := s.cf.passive }
  bfd_session_control_tx_timer s now false

/-- The notification-relevant fields of `struct bfd_request`.  `hook`
records whether a notify hook is installed (the hook pointer being
non-null); the callback body itself belongs to the subscriber. -/
structure Request where
  state : Nat
  diag : Nat
  old_state : Nat
  down : Bool
  opts : BfdOptions
  hook : Bool
deriving Repr, DecidableEq

/-- `bfd_request_notify`: deliver a state change to one request.  Nothing
happens when the delivered state equals the last delivered one; otherwise
the stored fields are updated (`down` is the source's three-way test) and
the hook, if installed, is invoked.  The second component reports whether
the subscriber's callback ran. -/
def bfd_request_notify (req : Request) (state remote diag : Nat) : Request × Bool :=
  let old_state := req.state
  if state = old_state then
    (req, false)
  else
    let req := { req with
      state := state, diag := diag, old_state := old_state,
      down := (old_state == BFD_STATE_UP) && (state == BFD_STATE_DOWN)
                && !(remote == BFD_STATE_ADMIN_DOWN) }
    (req, req.hook)

/-- A freshly allocated request: `ralloc` zero-fills the resource, so the
delivered-state fields start at zero (= AdminDown) and no hook is installed
yet; `bfd_request_session` fills in the options before submitting. -/
def bfd_request_init (opts : BfdOptions) : Request :=
  { state := 0, diag := 0, old_state := 0, down := false, opts := opts, hook := false }

/-- `bfd_submit_request`: attach to the first engine instance that accepts
the request — modelled by `engine` carrying the published state triple
`(loc_state, rem_state, loc_diag)` of the session the request attaches to,
read under the session spinlock in `bfd_add_request` — and synchronously
notify; with no engine accepting, park on the wait list and notify
AdminDown. -/
def bfd_submit_request (req : Request) (engine : Option (Nat × Nat × Nat)) : Request × Bool :=
  match engine with
  | some (loc_state, rem_state, diag) => bfd_request_notify req loc_state rem_state diag
  | none => bfd_request_notify req BFD_STATE_ADMIN_DOWN BFD_STATE_ADMIN_DOWN 0

/-- `bfd_request_session`: build the request, submit it, and only then
install the caller's notify hook.  The second component reports whether any
subscriber callback ran during the call. -/
def bfd_request_session (engine : Option (Nat × Nat × Nat)) (opts : BfdOptions) (hook : Bool) : Request × Bool :=
  let req := bfd_request_init opts
  let ri := bfd_submit_request req engine
  ({ ri.1 with hook := hook }, ri.2)

/-- `bfd_update_request`: an update whose options equal the stored ones byte
for byte is ignored; otherwise the options are stored and the owning
session, if any, is reconfigured.  The second component reports whether
`bfd_reconfigure_session` was invoked. -/
def bfd_update_request (req : Request) (opts : BfdOptions) (has_session : Bool) : Request × Bool :=
  if opts = req.opts then
    (req, false)
  else
    ({ req with opts := opts }, has_session)

/-- The state that `bfd_request_free` and `bfd_notify_hook` manipulate for
one session: its request list (requests stand for their identities), the
`notify_running` flag, and whether `bfd_remove_session` has been called. -/
structure NotifyState where
  request_list : List Nat
  notify_running : Bool
  session_destroyed : Bool
deriving Repr, DecidableEq

/-- `bfd_request_free`: unlink the request from its session's request list;
remove the session when the list became empty, unless inside notify hooks —
then `bfd_notify_hook` itself handles the removal. -/
def bfd_request_free (r : Nat) (st : NotifyState) : NotifyState :=
  let st := { st with request_list := st.request_list.erase r }
  if st.request_list.isEmpty ∧ st.notify_running = false then
    { st with session_destroyed := true }
  else
    st

/-- The per-request loop of `bfd_notify_hook` for one session
(`WALK_LIST_DELSAFE` over the request list): each request's callback runs,
and `rel r` tells whether request `r` releases itself from inside its own
callback, which executes `bfd_request_free` right there. -/
def bfd_notify_walk (rel : Nat → Bool) : List Nat → NotifyState → NotifyState
  | [], st => st
  | r :: rest, st =>
      bfd_notify_walk rel rest (if rel r then bfd_request_free r st else st)

/-- One session's round of `bfd_notify_hook`: raise `notify_running`, walk
the request list delivering callbacks (with in-callback releases), clear
`notify_running`, and remove the session if all its requests were removed
by the callbacks. -/
def bfd_notify_hook_session (rel : Nat → Bool) (reqs : List Nat) : NotifyState :=
  let st : NotifyState :=
    { request_list := reqs, notify_running := true, session_destroyed := false }
  let st := bfd_notify_walk rel reqs st
  let st := { st with notify_running := false }
  if st.request_list.isEmpty then { st with session_destroyed := true } else st

/-- The discipline the spec equates with in-callback release: every callback
runs with no in-callback release, and each request that wanted to release
itself is released by an ordinary `bfd_request_free` after the notification
walk has returned (so with `notify_running` cleared). -/
def bfd_notify_release_after (rel : Nat → Bool) (reqs : List Nat) : NotifyState :=
  let st : NotifyState :=
    { request_list := reqs, notify_running := false, session_destroyed := false }
  (reqs.filter rel).foldl (fun st r => bfd_request_free r st) st

/-- Invariants 3 and 4 of the spec's session data model: the TX timer is not
armed when the remote's required RX interval is zero, nor when the session
is passive and the remote discriminator is unknown. -/
def tx_timer_inv (s : Session) : Prop :=
  (s.rem_min_rx_int = 0 → tm_active s.tx_timer = false) ∧
  (s.passive = true ∧ s.rem_id = 0 → tm_active s.tx_timer = false)

instance (s : Session) : Decidable (tx_timer_inv s) := by
  unfold tx_timer_inv; infer_instance

/-- The negotiated-interval orderings of the spec's session data model:
`des_min_tx_int ≤ des_min_tx_new` and `req_min_rx_int ≥ req_min_rx_new`. -/
def interval_inv (s : Session) : Prop :=
  s.des_min_tx_int ≤ s.des_min_tx_new ∧ s.req_min_rx_new ≤ s.req_min_rx_int

instance (s : Session) : Decidable (interval_inv s) := by
  unfold interval_inv; infer_instance

/-- A concrete session configuration used to evaluate the theorems below on
closed inputs. -/
def sample_cf : SessionConfig :=
  { min_rx_int := 100000, min_tx_int := 100000, idle_tx_int := 1000000
    multiplier := 5, passive := false, auth_type := 0 }

/-- A concrete session (loc Down, rem Down, remote known) used to evaluate
the theorems below on closed inputs. -/
def sample_session : Session :=
  { loc_state := BFD_STATE_DOWN, loc_diag := 0, last_state_change := 0
    rem_state := BFD_STATE_DOWN, rem_id := 7, rem_min_tx_int := 100000
    rem_min_rx_int := 100000, rem_demand_mode := false, rem_detect_mult := 5
    rx_csn_known := false
    des_min_tx_int := 1000000, des_min_tx_new := 1000000
    req_min_rx_int := 100000, req_min_rx_new := 100000
    poll_active := 0, poll_scheduled := 0
    passive := false, detect_mult := 5
    last_tx := 0, last_rx := 0
    tx_timer := { expires := 0, recurrent := 0, randomize := 0 }
    hold_timer := { expires := 0, recurrent := 0, randomize := 0 }
    notify_pending := false, cf := sample_cf }

/-- Concrete per-request options used to evaluate the theorems below. -/
def sample_opts : BfdOptions :=
  { min_rx_int := 0, min_tx_int := 0, idle_tx_int := 0, multiplier := 0
    passive := false, passive_set := false, auth_type := 0 }

/-- A concrete interface configuration used to evaluate the theorems below. -/
def sample_icf : IfaceConfig :=
  { min_rx_int := 100000, min_tx_int := 100000, idle_tx_int := 1000000
    multiplier := 5, passive := false, auth_type := 0 }

/-- A concrete Up session with a recorded RX time, for closed evaluation. -/
def sample_up_session : Session :=
  { sample_session with loc_state := BFD_STATE_UP, last_rx := 5 }

/-- A concrete session whose effective TX interval is `T = 11`, with a
recorded previous transmit time, for closed evaluation. -/
def c6_session : Session :=
  { sample_session with des_min_tx_int := 11, rem_min_rx_int := 1, last_tx := 100 }

/-- A concrete Up/Up session with an active TX poll, for closed
evaluation. -/
def c3_session : Session :=
  { sample_session with
    loc_state := BFD_STATE_UP
    rem_state := BFD_STATE_UP
    poll_active := 1
    poll_scheduled := 0
    des_min_tx_new := 500000 }

/-- A concrete Down session observing a remote state of Up, for closed
evaluation. -/
def c1_session : Session :=
  { sample_session with rem_state := BFD_STATE_UP }

@[simp] theorem update_tx_interval_loc_state (s : Session) :
    (bfd_session_update_tx_interval s).loc_state = s.loc_state := by
  simp only [bfd_session_update_tx_interval]
  (repeat' split) <;> rfl

@[simp] theorem update_tx_interval_loc_diag (s : Session) :
    (bfd_session_update_tx_interval s).loc_diag = s.loc_diag := by
  simp only [bfd_session_update_tx_interval]
  (repeat' split) <;> rfl

@[simp] theorem update_tx_interval_rem_state (s : Session) :
    (bfd_session_update_tx_interval s).rem_state = s.rem_state := by
  simp only [bfd_session_update_tx_interval]
  (repeat' split) <;> rfl

@[simp] theorem update_tx_interval_rem_id (s : Session) :
    (bfd_session_update_tx_interval s).rem_id = s.rem_id := by
  simp only [bfd_session_update_tx_interval]
  (repeat' split) <;> rfl

@[simp] theorem update_tx_interval_rem_min_tx_int (s : Session) :
    (bfd_session_update_tx_interval s).rem_min_tx_int = s.rem_min_tx_int := by
  simp only [bfd_session_update_tx_interval]
  (repeat' split) <;> rfl

@[simp] theorem update_tx_interval_rem_min_rx_int (s : Session) :
    (bfd_session_update_tx_interval s).rem_min_rx_int = s.rem_min_rx_int := by
  simp only [bfd_session_update_tx_interval]
  (repeat' split) <;> rfl

@[simp] theorem update_tx_interval_rem_demand_mode (s : Session) :
    (bfd_session_update_tx_interval s).rem_demand_mode = s.rem_demand_mode := by
  simp only [bfd_session_update_tx_interval]
  (repeat' split) <;> rfl

@[simp] theorem update_tx_interval_rem_detect_mult (s : Session) :
    (bfd_session_update_tx_interval s).rem_detect_mult = s.rem_detect_mult := by
  simp only [bfd_session_update_tx_interval]
  (repeat' split) <;> rfl

@[simp] theorem update_tx_interval_passive (s : Session) :
    (bfd_session_update_tx_interval s).passive = s.passive := by
  simp only [bfd_session_update_tx_interval]
  (repeat' split) <;> rfl

@[simp] theorem update_tx_interval_des_min_tx_int (s : Session) :
    (bfd_session_update_tx_interval s).des_min_tx_int = s.des_min_tx_int := by
  simp only [bfd_session_update_tx_interval]
  (repeat' split) <;> rfl

@[simp] theorem update_tx_interval_des_min_tx_new (s : Session) :
    (bfd_session_update_tx_interval s).des_min_tx_new = s.des_min_tx_new := by
  simp only [bfd_session_update_tx_interval]
  (repeat' split) <;> rfl

@[simp] theorem update_tx_interval_req_min_rx_int (s : Session) :
    (bfd_session_update_tx_interval s).req_min_rx_int = s.req_min_rx_int := by
  simp only [bfd_session_update_tx_interval]
  (repeat' split) <;> rfl

@[simp] theorem update_tx_interval_req_min_rx_new (s : Session) :
    (bfd_session_update_tx_interval s).req_min_rx_new = s.req_min_rx_new := by
  simp only [bfd_session_update_tx_interval]
  (repeat' split) <;> rfl

@[simp] theorem update_tx_interval_poll_active (s : Session) :
    (bfd_session_update_tx_interval s).poll_active = s.poll_active := by
  simp only [bfd_session_update_tx_interval]
  (repeat' split) <;> rfl

@[simp] theorem update_tx_interval_poll_scheduled (s : Session) :
    (bfd_session_update_tx_interval s).poll_scheduled = s.poll_scheduled := by
  simp only [bfd_session_update_tx_interval]
  (repeat' split) <;> rfl

@[simp] theorem update_tx_interval_cf (s : Session) :
    (bfd_session_update_tx_interval s).cf = s.cf := by
  simp only [bfd_session_update_tx_interval]
  (repeat' split) <;> rfl

@[simp] theorem detection_time_loc_state (s : Session) (now : Nat) (kick : Bool) :
    (bfd_session_update_detection_time s now kick).loc_state = s.loc_state := by
  simp only [bfd_session_update_detection_time]
  (repeat' split) <;> rfl

@[simp] theorem detection_time_loc_diag (s : Session) (now : Nat) (kick : Bool) :
    (bfd_session_update_detection_time s now kick).loc_diag = s.loc_diag := by
  simp only [bfd_session_update_detection_time]
  (repeat' split) <;> rfl

@[simp] theorem detection_time_rem_state (s : Session) (now : Nat) (kick : Bool) :
    (bfd_session_update_detection_time s now kick).rem_state = s.rem_state := by
  simp only [bfd_session_update_detection_time]
  (repeat' split) <;> rfl

@[simp] theorem detection_time_rem_id (s : Session) (now : Nat) (kick : Bool) :
    (bfd_session_update_detection_time s now kick).rem_id = s.rem_id := by
  simp only [bfd_session_update_detection_time]
  (repeat' split) <;> rfl

@[simp] theorem detection_time_rem_min_tx_int (s : Session) (now : Nat) (kick : Bool) :
    (bfd_session_update_detection_time s now kick).rem_min_tx_int = s.rem_min_tx_int := by
  simp only [bfd_session_update_detection_time]
  (repeat' split) <;> rfl

@[simp] theorem detection_time_rem_min_rx_int (s : Session) (now : Nat) (kick : Bool) :
    (bfd_session_update_detection_time s now kick).rem_min_rx_int = s.rem_min_rx_int := by
  simp only [bfd_session_update_detection_time]
  (repeat' split) <;> rfl

@[simp] theorem detection_time_rem_demand_mode (s : Session) (now : Nat) (kick : Bool) :
    (bfd_session_update_detection_time s now kick).rem_demand_mode = s.rem_demand_mode := by
  simp only [bfd_session_update_detection_time]
  (repeat' split) <;> rfl

@[simp] theorem detection_time_rem_detect_mult (s : Session) (now : Nat) (kick : Bool) :
    (bfd_session_update_detection_time s now kick).rem_detect_mult = s.rem_detect_mult := by
  simp only [bfd_session_update_detection_time]
  (repeat' split) <;> rfl

@[simp] theorem detection_time_passive (s : Session) (now : Nat) (kick : Bool) :
    (bfd_session_update_detection_time s now kick).passive = s.passive := by
  simp only [bfd_session_update_detection_time]
  (repeat' split) <;> rfl

@[simp] theorem detection_time_des_min_tx_int (s : Session) (now : Nat) (kick : Bool) :
    (bfd_session_update_detection_time s now kick).des_min_tx_int = s.des_min_tx_int := by
  simp only [bfd_session_update_detection_time]
  (repeat' split) <;> rfl

@[simp] theorem detection_time_des_min_tx_new (s : Session) (now : Nat) (kick : Bool) :
    (bfd_session_update_detection_time s now kick).des_min_tx_new = s.des_min_tx_new := by
  simp only [bfd_session_update_detection_time]
  (repeat' split) <;> rfl

@[simp] theorem detection_time_req_min_rx_int (s : Session) (now : Nat) (kick : Bool) :
    (bfd_session_update_detection_time s now kick).req_min_rx_int = s.req_min_rx_int := by
  simp only [bfd_session_update_detection_time]
  (repeat' split) <;> rfl

@[simp] theorem detection_time_req_min_rx_new (s : Session) (now : Nat) (kick : Bool) :
    (bfd_session_update_detection_time s now kick).req_min_rx_new = s.req_min_rx_new := by
  simp only [bfd_session_update_detection_time]
  (repeat' split) <;> rfl

@[simp] theorem detection_time_poll_active (s : Session) (now : Nat) (kick : Bool) :
    (bfd_session_update_detection_time s now kick).poll_active = s.poll_active := by
  simp only [bfd_session_update_detection_time]
  (repeat' split) <;> rfl

@[simp] theorem detection_time_poll_scheduled (s : Session) (now : Nat) (kick : Bool) :
    (bfd_session_update_detection_time s now kick).poll_scheduled = s.poll_scheduled := by
  simp only [bfd_session_update_detection_time]
  (repeat' split) <;> rfl

@[simp] theorem detection_time_cf (s : Session) (now : Nat) (kick : Bool) :
    (bfd_session_update_detection_time s now kick).cf = s.cf := by
  simp only [bfd_session_update_detection_time]
  (repeat' split) <;> rfl

@[simp] theorem control_tx_loc_state (s : Session) (now : Nat) (reset : Bool) :
    (bfd_session_control_tx_timer s now reset).loc_state = s.loc_state := by
  simp only [bfd_session_control_tx_timer]
  (repeat' split) <;> rfl

@[simp] theorem control_tx_loc_diag (s : Session) (now : Nat) (reset : Bool) :
    (bfd_session_control_tx_timer s now reset).loc_diag = s.loc_diag := by
  simp only [bfd_session_control_tx_timer]
  (repeat' split) <;> rfl

@[simp] theorem control_tx_rem_state (s : Session) (now : Nat) (reset : Bool) :
    (bfd_session_control_tx_timer s now reset).rem_state = s.rem_state := by
  simp only [bfd_session_control_tx_timer]
  (repeat' split) <;> rfl

@[simp] theorem control_tx_rem_id (s : Session) (now : Nat) (reset : Bool) :
    (bfd_session_control_tx_timer s now reset).rem_id = s.rem_id := by
  simp only [bfd_session_control_tx_timer]
  (repeat' split) <;> rfl

@[simp] theorem control_tx_rem_min_tx_int (s : Session) (now : Nat) (reset : Bool) :
    (bfd_session_control_tx_timer s now reset).rem_min_tx_int = s.rem_min_tx_int := by
  simp only [bfd_session_control_tx_timer]
  (repeat' split) <;> rfl

@[simp] theorem control_tx_rem_min_rx_int (s : Session) (now : Nat) (reset : Bool) :
    (bfd_session_control_tx_timer s now reset).rem_min_rx_int = s.rem_min_rx_int := by
  simp only [bfd_session_control_tx_timer]
  (repeat' split) <;> rfl

@[simp] theorem control_tx_rem_demand_mode (s : Session) (now : Nat) (reset : Bool) :
    (bfd_session_control_tx_timer s now reset).rem_demand_mode = s.rem_demand_mode := by
  simp only [bfd_session_control_tx_timer]
  (repeat' split) <;> rfl

@[simp] theorem control_tx_rem_detect_mult (s : Session) (now : Nat) (reset : Bool) :
    (bfd_session_control_tx_timer s now reset).rem_detect_mult = s.rem_detect_mult := by
  simp only [bfd_session_control_tx_timer]
  (repeat' split) <;> rfl

@[simp] theorem control_tx_passive (s : Session) (now : Nat) (reset : Bool) :
    (bfd_session_control_tx_timer s now reset).passive = s.passive := by
  simp only [bfd_session_control_tx_timer]
  (repeat' split) <;> rfl

@[simp] theorem control_tx_des_min_tx_int (s : Session) (now : Nat) (reset : Bool) :
    (bfd_session_control_tx_timer s now reset).des_min_tx_int = s.des_min_tx_int := by
  simp only [bfd_session_control_tx_timer]
  (repeat' split) <;> rfl

@[simp] theorem control_tx_des_min_tx_new (s : Session) (now : Nat) (reset : Bool) :
    (bfd_session_control_tx_timer s now reset).des_min_tx_new = s.des_min_tx_new := by
  simp only [bfd_session_control_tx_timer]
  (repeat' split) <;> rfl

@[simp] theorem control_tx_req_min_rx_int (s : Session) (now : Nat) (reset : Bool) :
    (bfd_session_control_tx_timer s now reset).req_min_rx_int = s.req_min_rx_int := by
  simp only [bfd_session_control_tx_timer]
  (repeat' split) <;> rfl

@[simp] theorem control_tx_req_min_rx_new (s : Session) (now : Nat) (reset : Bool) :
    (bfd_session_control_tx_timer s now reset).req_min_rx_new = s.req_min_rx_new := by
  simp only [bfd_session_control_tx_timer]
  (repeat' split) <;> rfl

@[simp] theorem control_tx_poll_active (s : Session) (now : Nat) (reset : Bool) :
    (bfd_session_control_tx_timer s now reset).poll_active = s.poll_active := by
  simp only [bfd_session_control_tx_timer]
  (repeat' split) <;> rfl

@[simp] theorem control_tx_poll_scheduled (s : Session) (now : Nat) (reset : Bool) :
    (bfd_session_control_tx_timer s now reset).poll_scheduled = s.poll_scheduled := by
  simp only [bfd_session_control_tx_timer]
  (repeat' split) <;> rfl

@[simp] theorem control_tx_cf (s : Session) (now : Nat) (reset : Bool) :
    (bfd_session_control_tx_timer s now reset).cf = s.cf := by
  simp only [bfd_session_control_tx_timer]
  (repeat' split) <;> rfl

@[simp] theorem request_poll_loc_state (s : Session) (now request : Nat) :
    (bfd_session_request_poll s now request).loc_state = s.loc_state := by
  simp only [bfd_session_request_poll]
  (repeat' split) <;> simp

@[simp] theorem request_poll_loc_diag (s : Session) (now request : Nat) :
    (bfd_session_request_poll s now request).loc_diag = s.loc_diag := by
  simp only [bfd_session_request_poll]
  (repeat' split) <;> simp

@[simp] theorem request_poll_rem_state (s : Session) (now request : Nat) :
    (bfd_session_request_poll s now request).rem_state = s.rem_state := by
  simp only [bfd_session_request_poll]
  (repeat' split) <;> simp

@[simp] theorem request_poll_rem_id (s : Session) (now request : Nat) :
    (bfd_session_request_poll s now request).rem_id = s.rem_id := by
  simp only [bfd_session_request_poll]
  (repeat' split) <;> simp

@[simp] theorem request_poll_rem_min_tx_int (s : Session) (now request : Nat) :
    (bfd_session_request_poll s now request).rem_min_tx_int = s.rem_min_tx_int := by
  simp only [bfd_session_request_poll]
  (repeat' split) <;> simp

@[simp] theorem request_poll_rem_min_rx_int (s : Session) (now request : Nat) :
    (bfd_session_request_poll s now request).rem_min_rx_int = s.rem_min_rx_int := by
  simp only [bfd_session_request_poll]
  (repeat' split) <;> simp

@[simp] theorem request_poll_rem_demand_mode (s : Session) (now request : Nat) :
    (bfd_session_request_poll s now request).rem_demand_mode = s.rem_demand_mode := by
  simp only [bfd_session_request_poll]
  (repeat' split) <;> simp

@[simp] theorem request_poll_rem_detect_mult (s : Session) (now request : Nat) :
    (bfd_session_request_poll s now request).rem_detect_mult = s.rem_detect_mult := by
  simp only [bfd_session_request_poll]
  (repeat' split) <;> simp

@[simp] theorem request_poll_passive (s : Session) (now request : Nat) :
    (bfd_session_request_poll s now request).passive = s.passive := by
  simp only [bfd_session_request_poll]
  (repeat' split) <;> simp

@[simp] theorem request_poll_des_min_tx_int (s : Session) (now request : Nat) :
    (bfd_session_request_poll s now request).des_min_tx_int = s.des_min_tx_int := by
  simp only [bfd_session_request_poll]
  (repeat' split) <;> simp

@[simp] theorem request_poll_des_min_tx_new (s : Session) (now request : Nat) :
    (bfd_session_request_poll s now request).des_min_tx_new = s.des_min_tx_new := by
  simp only [bfd_session_request_poll]
  (repeat' split) <;> simp

@[simp] theorem request_poll_req_min_rx_int (s : Session) (now request : Nat) :
    (bfd_session_request_poll s now request).req_min_rx_int = s.req_min_rx_int := by
  simp only [bfd_session_request_poll]
  (repeat' split) <;> simp

@[simp] theorem request_poll_req_min_rx_new (s : Session) (now request : Nat) :
    (bfd_session_request_poll s now request).req_min_rx_new = s.req_min_rx_new := by
  simp only [bfd_session_request_poll]
  (repeat' split) <;> simp

@[simp] theorem request_poll_cf (s : Session) (now request : Nat) :
    (bfd_session_request_poll s now request).cf = s.cf := by
  simp only [bfd_session_request_poll]
  (repeat' split) <;> simp

@[simp] theorem terminate_poll_loc_state (s : Session) :
    (bfd_session_terminate_poll s).loc_state = s.loc_state := by
  simp only [bfd_session_terminate_poll]
  (repeat' split) <;> simp

@[simp] theorem terminate_poll_loc_diag (s : Session) :
    (bfd_session_terminate_poll s).loc_diag = s.loc_diag := by
  simp only [bfd_session_terminate_poll]
  (repeat' split) <;> simp

@[simp] theorem terminate_poll_rem_state (s : Session) :
    (bfd_session_terminate_poll s).rem_state = s.rem_state := by
  simp only [bfd_session_terminate_poll]
  (repeat' split) <;> simp

@[simp] theorem terminate_poll_rem_id (s : Session) :
    (bfd_session_terminate_poll s).rem_id = s.rem_id := by
  simp only [bfd_session_terminate_poll]
  (repeat' split) <;> simp

@[simp] theorem terminate_poll_rem_min_tx_int (s : Session) :
    (bfd_session_terminate_poll s).rem_min_tx_int = s.rem_min_tx_int := by
  simp only [bfd_session_terminate_poll]
  (repeat' split) <;> simp

@[simp] theorem terminate_poll_rem_min_rx_int (s : Session) :
    (bfd_session_terminate_poll s).rem_min_rx_int = s.rem_min_rx_int := by
  simp only [bfd_session_terminate_poll]
  (repeat' split) <;> simp

@[simp] theorem terminate_poll_rem_demand_mode (s : Session) :
    (bfd_session_terminate_poll s).rem_demand_mode = s.rem_demand_mode := by
  simp only [bfd_session_terminate_poll]
  (repeat' split) <;> simp

@[simp] theorem terminate_poll_rem_detect_mult (s : Session) :
    (bfd_session_terminate_poll s).rem_detect_mult = s.rem_detect_mult := by
  simp only [bfd_session_terminate_poll]
  (repeat' split) <;> simp

@[simp] theorem terminate_poll_passive (s : Session) :
    (bfd_session_terminate_poll s).passive = s.passive := by
  simp only [bfd_session_terminate_poll]
  (repeat' split) <;> simp

@[simp] theorem terminate_poll_des_min_tx_new (s : Session) :
    (bfd_session_terminate_poll s).des_min_tx_new = s.des_min_tx_new := by
  simp only [bfd_session_terminate_poll]
  (repeat' split) <;> simp

@[simp] theorem terminate_poll_req_min_rx_new (s : Session) :
    (bfd_session_terminate_poll s).req_min_rx_new = s.req_min_rx_new := by
  simp only [bfd_session_terminate_poll]
  (repeat' split) <;> simp

@[simp] theorem terminate_poll_cf (s : Session) :
    (bfd_session_terminate_poll s).cf = s.cf := by
  simp only [bfd_session_terminate_poll]
  (repeat' split) <;> simp

@[simp] theorem set_min_tx_loc_state (s : Session) (now val : Nat) :
    (bfd_session_set_min_tx s now val).loc_state = s.loc_state := by
  simp only [bfd_session_set_min_tx]
  (repeat' split) <;> simp

@[simp] theorem set_min_tx_loc_diag (s : Session) (now val : Nat) :
    (bfd_session_set_min_tx s now val).loc_diag = s.loc_diag := by
  simp only [bfd_session_set_min_tx]
  (repeat' split) <;> simp

@[simp] theorem set_min_tx_rem_state (s : Session) (now val : Nat) :
    (bfd_session_set_min_tx s now val).rem_state = s.rem_state := by
  simp only [bfd_session_set_min_tx]
  (repeat' split) <;> simp

@[simp] theorem set_min_tx_rem_id (s : Session) (now val : Nat) :
    (bfd_session_set_min_tx s now val).rem_id = s.rem_id := by
  simp only [bfd_session_set_min_tx]
  (repeat' split) <;> simp

@[simp] theorem set_min_tx_rem_min_tx_int (s : Session) (now val : Nat) :
    (bfd_session_set_min_tx s now val).rem_min_tx_int = s.rem_min_tx_int := by
  simp only [bfd_session_set_min_tx]
  (repeat' split) <;> simp

@[simp] theorem set_min_tx_rem_min_rx_int (s : Session) (now val : Nat) :
    (bfd_session_set_min_tx s now val).rem_min_rx_int = s.rem_min_rx_int := by
  simp only [bfd_session_set_min_tx]
  (repeat' split) <;> simp

@[simp] theorem set_min_tx_rem_demand_mode (s : Session) (now val : Nat) :
    (bfd_session_set_min_tx s now val).rem_demand_mode = s.rem_demand_mode := by
  simp only [bfd_session_set_min_tx]
  (repeat' split) <;> simp

@[simp] theorem set_min_tx_rem_detect_mult (s : Session) (now val : Nat) :
    (bfd_session_set_min_tx s now val).rem_detect_mult = s.rem_detect_mult := by
  simp only [bfd_session_set_min_tx]
  (repeat' split) <;> simp

@[simp] theorem set_min_tx_passive (s : Session) (now val : Nat) :
    (bfd_session_set_min_tx s now val).passive = s.passive := by
  simp only [bfd_session_set_min_tx]
  (repeat' split) <;> simp

@[simp] theorem set_min_tx_req_min_rx_int (s : Session) (now val : Nat) :
    (bfd_session_set_min_tx s now val).req_min_rx_int = s.req_min_rx_int := by
  simp only [bfd_session_set_min_tx]
  (repeat' split) <;> simp

@[simp] theorem set_min_tx_req_min_rx_new (s : Session) (now val : Nat) :
    (bfd_session_set_min_tx s now val).req_min_rx_new = s.req_min_rx_new := by
  simp only [bfd_session_set_min_tx]
  (repeat' split) <;> simp

@[simp] theorem set_min_tx_cf (s : Session) (now val : Nat) :
    (bfd_session_set_min_tx s now val).cf = s.cf := by
  simp only [bfd_session_set_min_tx]
  (repeat' split) <;> simp

@[simp] theorem set_min_rx_loc_state (s : Session) (now val : Nat) :
    (bfd_session_set_min_rx s now val).loc_state = s.loc_state := by
  simp only [bfd_session_set_min_rx]
  (repeat' split) <;> simp

@[simp] theorem set_min_rx_loc_diag (s : Session) (now val : Nat) :
    (bfd_session_set_min_rx s now val).loc_diag = s.loc_diag := by
  simp only [bfd_session_set_min_rx]
  (repeat' split) <;> simp

@[simp] theorem set_min_rx_rem_state (s : Session) (now val : Nat) :
    (bfd_session_set_min_rx s now val).rem_state = s.rem_state := by
  simp only [bfd_session_set_min_rx]
  (repeat' split) <;> simp

@[simp] theorem set_min_rx_rem_id (s : Session) (now val : Nat) :
    (bfd_session_set_min_rx s now val).rem_id = s.rem_id := by
  simp only [bfd_session_set_min_rx]
  (repeat' split) <;> simp

@[simp] theorem set_min_rx_rem_min_tx_int (s : Session) (now val : Nat) :
    (bfd_session_set_min_rx s now val).rem_min_tx_int = s.rem_min_tx_int := by
  simp only [bfd_session_set_min_rx]
  (repeat' split) <;> simp

@[simp] theorem set_min_rx_rem_min_rx_int (s : Session) (now val : Nat) :
    (bfd_session_set_min_rx s now val).rem_min_rx_int = s.rem_min_rx_int := by
  simp only [bfd_session_set_min_rx]
  (repeat' split) <;> simp

@[simp] theorem set_min_rx_rem_demand_mode (s : Session) (now val : Nat) :
    (bfd_session_set_min_rx s now val).rem_demand_mode = s.rem_demand_mode := by
  simp only [bfd_session_set_min_rx]
  (repeat' split) <;> simp

@[simp] theorem set_min_rx_rem_detect_mult (s : Session) (now val : Nat) :
    (bfd_session_set_min_rx s now val).rem_detect_mult = s.rem_detect_mult := by
  simp only [bfd_session_set_min_rx]
  (repeat' split) <;> simp

@[simp] theorem set_min_rx_passive (s : Session) (now val : Nat) :
    (bfd_session_set_min_rx s now val).passive = s.passive := by
  simp only [bfd_session_set_min_rx]
  (repeat' split) <;> simp

@[simp] theorem set_min_rx_des_min_tx_int (s : Session) (now val : Nat) :
    (bfd_session_set_min_rx s now val).des_min_tx_int = s.des_min_tx_int := by
  simp only [bfd_session_set_min_rx]
  (repeat' split) <;> simp

@[simp] theorem set_min_rx_des_min_tx_new (s : Session) (now val : Nat) :
    (bfd_session_set_min_rx s now val).des_min_tx_new = s.des_min_tx_new := by
  simp only [bfd_session_set_min_rx]
  (repeat' split) <;> simp

@[simp] theorem set_min_rx_cf (s : Session) (now val : Nat) :
    (bfd_session_set_min_rx s now val).cf = s.cf := by
  simp only [bfd_session_set_min_rx]
  (repeat' split) <;> simp

@[simp] theorem update_state_rem_state (s : Session) (now state diag : Nat) :
    (bfd_session_update_state s now state diag).rem_state = s.rem_state := by
  simp only [bfd_session_update_state]
  (repeat' split) <;> simp

@[simp] theorem update_state_rem_id (s : Session) (now state diag : Nat) :
    (bfd_session_update_state s now state diag).rem_id = s.rem_id := by
  simp only [bfd_session_update_state]
  (repeat' split) <;> simp

@[simp] theorem update_state_rem_min_tx_int (s : Session) (now state diag : Nat) :
    (bfd_session_update_state s now state diag).rem_min_tx_int = s.rem_min_tx_int := by
  simp only [bfd_session_update_state]
  (repeat' split) <;> simp

@[simp] theorem update_state_rem_min_rx_int (s : Session) (now state diag : Nat) :
    (bfd_session_update_state s now state diag).rem_min_rx_int = s.rem_min_rx_int := by
  simp only [bfd_session_update_state]
  (repeat' split) <;> simp

@[simp] theorem update_state_rem_demand_mode (s : Session) (now state diag : Nat) :
    (bfd_session_update_state s now state diag).rem_demand_mode = s.rem_demand_mode := by
  simp only [bfd_session_update_state]
  (repeat' split) <;> simp

@[simp] theorem update_state_rem_detect_mult (s : Session) (now state diag : Nat) :
    (bfd_session_update_state s now state diag).rem_detect_mult = s.rem_detect_mult := by
  simp only [bfd_session_update_state]
  (repeat' split) <;> simp

@[simp] theorem update_state_passive (s : Session) (now state diag : Nat) :
    (bfd_session_update_state s now state diag).passive = s.passive := by
  simp only [bfd_session_update_state]
  (repeat' split) <;> simp

@[simp] theorem update_state_req_min_rx_int (s : Session) (now state diag : Nat) :
    (bfd_session_update_state s now state diag).req_min_rx_int = s.req_min_rx_int := by
  simp only [bfd_session_update_state]
  (repeat' split) <;> simp

@[simp] theorem update_state_req_min_rx_new (s : Session) (now state diag : Nat) :
    (bfd_session_update_state s now state diag).req_min_rx_new = s.req_min_rx_new := by
  simp only [bfd_session_update_state]
  (repeat' split) <;> simp

@[simp] theorem update_state_cf (s : Session) (now state diag : Nat) :
    (bfd_session_update_state s now state diag).cf = s.cf := by
  simp only [bfd_session_update_state]
  (repeat' split) <;> simp

@[simp] theorem send_ctl_id (s : Session) (f : Bool) : bfd_send_ctl s f = s := rfl

@[simp] theorem update_state_loc_state (s : Session) (now state diag : Nat) :
    (bfd_session_update_state s now state diag).loc_state
      = if state = s.loc_state then s.loc_state else state := by
  simp only [bfd_session_update_state]
  (repeat' split) <;> simp_all

@[simp] theorem update_state_loc_diag (s : Session) (now state diag : Nat) :
    (bfd_session_update_state s now state diag).loc_diag
      = if state = s.loc_state then s.loc_diag else diag := by
  simp only [bfd_session_update_state]
  (repeat' split) <;> simp_all

/-- C7: a request's callback is invoked only when the delivered
`(state, diag)` pair differs from the last delivered value, and the
delivered `down` flag is true iff the previously delivered state was Up,
the new state is Down, and the session's remote state at the time of the
transition was not AdminDown. -/
theorem request_notify_contract (req : Request) (state remote diag : Nat) :
    ((bfd_request_notify req state remote diag).2 = true →
        (state, diag) ≠ (req.state, req.diag)) ∧
    (state = req.state →
        (bfd_request_notify req state remote diag).1 = req ∧
        (bfd_request_notify req state remote diag).2 = false) ∧
    (state ≠ req.state →
        ((bfd_request_notify req state remote diag).1.down = true ↔
          (req.state = BFD_STATE_UP ∧ state = BFD_STATE_DOWN ∧
            remote ≠ BFD_STATE_ADMIN_DOWN)) ∧
        (bfd_request_notify req state remote diag).1.state = state ∧
        (bfd_request_notify req state remote diag).1.diag = diag ∧
        (bfd_request_notify req state remote diag).1.old_state = req.state) := by
  unfold bfd_request_notify
  by_cases h : state = req.state
  · simp_all
  · simp_all
    tauto

theorem request_notify_contract_witness :
    ((bfd_request_notify
        { state := BFD_STATE_UP, diag := 0, old_state := BFD_STATE_INIT,
          down := false, opts := sample_opts, hook := true }
        BFD_STATE_DOWN BFD_STATE_DOWN BFD_DIAG_TIMEOUT).1.down = true ↔
      (BFD_STATE_UP = BFD_STATE_UP ∧ BFD_STATE_DOWN = BFD_STATE_DOWN ∧
        BFD_STATE_DOWN ≠ BFD_STATE_ADMIN_DOWN)) ∧
    (bfd_request_notify
        { state := BFD_STATE_UP, diag := 0, old_state := BFD_STATE_INIT,
          down := false, opts := sample_opts, hook := true }
        BFD_STATE_DOWN BFD_STATE_DOWN BFD_DIAG_TIMEOUT).1.state = BFD_STATE_DOWN ∧
    (bfd_request_notify
        { state := BFD_STATE_UP, diag := 0, old_state := BFD_STATE_INIT,
          down := false, opts := sample_opts, hook := true }
        BFD_STATE_DOWN BFD_STATE_DOWN BFD_DIAG_TIMEOUT).1.diag = BFD_DIAG_TIMEOUT ∧
    (bfd_request_notify
        { state := BFD_STATE_UP, diag := 0, old_state := BFD_STATE_INIT,
          down := false, opts := sample_opts, hook := true }
        BFD_STATE_DOWN BFD_STATE_DOWN BFD_DIAG_TIMEOUT).1.old_state = BFD_STATE_UP :=
  (request_notify_contract
    { state := BFD_STATE_UP, diag := 0, old_state := BFD_STATE_INIT,
      down := false, opts := sample_opts, hook := true }
    BFD_STATE_DOWN BFD_STATE_DOWN BFD_DIAG_TIMEOUT).2.2 (by decide)

/-- C9: a second `bfd_update_request` with the same options is a no-op — it
compares the supplied options with the stored ones and returns without
invoking `bfd_reconfigure_session` when they are equal, so two successive
calls with the same options reconfigure at most once. -/
theorem update_request_idempotent (req : Request) (opts : BfdOptions) (hs hs2 : Bool) :
    (bfd_update_request (bfd_update_request req opts hs).1 opts hs2).2 = false ∧
    (bfd_update_request (bfd_update_request req opts hs).1 opts hs2).1
      = (bfd_update_request req opts hs).1 := by
  unfold bfd_update_request
  by_cases h : opts = req.opts <;> simp_all

/-- C10: `bfd_request_session` installs the caller's hook only after
submission, so the initial synchronous notification (including the
AdminDown one delivered when no engine accepts the request) never invokes
the caller's callback; the request produced is exactly the submitted one
with the hook then installed. -/
theorem request_session_initial_notify (engine : Option (Nat × Nat × Nat))
    (opts : BfdOptions) (hook : Bool) :
    (bfd_request_session engine opts hook).2 = false ∧
    (bfd_request_session engine opts hook).1
      = { (bfd_submit_request (bfd_request_init opts) engine).1 with hook := hook } ∧
    (engine = none →
      (bfd_request_session engine opts hook).1.state = BFD_STATE_ADMIN_DOWN ∧
      (bfd_request_session engine opts hook).1.down = false) := by
  unfold bfd_request_session bfd_submit_request bfd_request_notify bfd_request_init
  rcases engine with _ | ⟨ls, rs, d⟩
  · simp [BFD_STATE_ADMIN_DOWN]
  · by_cases h : ls = 0 <;> simp_all

theorem request_session_initial_notify_witness :
    (bfd_request_session none sample_opts true).1.state = BFD_STATE_ADMIN_DOWN ∧
    (bfd_request_session none sample_opts true).1.down = false :=
  (request_session_initial_notify none sample_opts true).2.2 rfl
theorem control_tx_establishes (s : Session) (now : Nat) (reset : Bool) :
    tx_timer_inv (bfd_session_control_tx_timer s now reset) := by
  unfold bfd_session_control_tx_timer tx_timer_inv
  split
  · simp [tm_active, tm_stop]
  · next h =>
    simp only [not_or] at h
    obtain ⟨hA, hB, hC⟩ := h
    split <;>
      exact ⟨fun h0 => absurd h0 hC, fun hP => absurd hP (by simpa using hA)⟩

/-- C4: the TX-timer invariant (never armed when `rem_min_rx_int == 0`, nor
when passive with unknown remote id) is established by
`bfd_session_control_tx_timer` and re-established by every operation that
changes the fields involved: control packet processing (outside AdminDown,
which this code never enters), detection timeout, session creation and
session reconfiguration. -/
theorem tx_timer_inv_maintained :
    (∀ (s : Session) (now : Nat) (reset : Bool),
        tx_timer_inv (bfd_session_control_tx_timer s now reset)) ∧
    (∀ (s : Session) (now flags otx orx : Nat),
        s.loc_state ≠ BFD_STATE_ADMIN_DOWN →
        tx_timer_inv (bfd_session_process_ctl s now flags otx orx)) ∧
    (∀ (s : Session) (now : Nat), tx_timer_inv (bfd_session_timeout s now)) ∧
    (∀ (now : Nat) (icf : IfaceConfig) (opts : BfdOptions),
        tx_timer_inv (bfd_add_session now icf opts)) ∧
    (∀ (s : Session) (now : Nat) (icf : IfaceConfig) (opts : BfdOptions),
        tx_timer_inv (bfd_reconfigure_session s now icf opts)) := by
  refine ⟨control_tx_establishes, ?_, ?_, ?_, ?_⟩
  · intro s now flags otx orx h
    simp only [bfd_session_process_ctl, send_ctl_id, ite_self,
      apply_ite Session.loc_state, detection_time_loc_state,
      update_tx_interval_loc_state, terminate_poll_loc_state]
    rw [if_neg h]
    exact control_tx_establishes _ _ _
  · intro s now
    exact control_tx_establishes _ _ _
  · intro now icf opts
    exact control_tx_establishes _ _ _
  · intro s now icf opts
    exact control_tx_establishes _ _ _

theorem tx_timer_inv_maintained_witness :
    tx_timer_inv (bfd_session_process_ctl sample_session 1 0 0 0) :=
  tx_timer_inv_maintained.2.1 sample_session 1 0 0 0 (by decide)

/-- C5: the interval orderings `des_min_tx_int ≤ des_min_tx_new` and
`req_min_rx_int ≥ req_min_rx_new` hold at session creation and are
preserved by `bfd_session_set_min_tx`, `bfd_session_set_min_rx` and the
poll commit of `bfd_session_terminate_poll`. -/
theorem interval_inv_maintained :
    (∀ (now : Nat) (icf : IfaceConfig) (opts : BfdOptions),
        interval_inv (bfd_add_session now icf opts)) ∧
    (∀ (s : Session) (now val : Nat), interval_inv s →
        interval_inv (bfd_session_set_min_tx s now val)) ∧
    (∀ (s : Session) (now val : Nat), interval_inv s →
        interval_inv (bfd_session_set_min_rx s now val)) ∧
    (∀ (s : Session), interval_inv s →
        interval_inv (bfd_session_terminate_poll s)) := by
  refine ⟨?_, ?_, ?_, ?_⟩
  · intro now icf opts
    simp [interval_inv, bfd_add_session]
  · intro s now val h
    obtain ⟨h1, h2⟩ := h
    unfold bfd_session_set_min_tx
    split
    · exact ⟨h1, h2⟩
    · simp only [interval_inv, request_poll_des_min_tx_int, request_poll_des_min_tx_new,
        request_poll_req_min_rx_int, request_poll_req_min_rx_new]
      split
      · simpa using h2
      · next hcond =>
        push_neg at hcond
        exact ⟨hcond.2, h2⟩
  · intro s now val h
    obtain ⟨h1, h2⟩ := h
    unfold bfd_session_set_min_rx
    split
    · exact ⟨h1, h2⟩
    · simp only [interval_inv, request_poll_des_min_tx_int, request_poll_des_min_tx_new,
        request_poll_req_min_rx_int, request_poll_req_min_rx_new]
      split
      · simpa using h1
      · next hcond =>
        push_neg at hcond
        exact ⟨h1, hcond.2⟩
  · intro s h
    obtain ⟨h1, h2⟩ := h
    unfold bfd_session_terminate_poll
    refine ⟨?_, ?_⟩ <;> (dsimp only; split <;> split <;> simp [h1, h2])

theorem interval_inv_maintained_witness :
    interval_inv (bfd_session_set_min_tx sample_session 1 500000) :=
  interval_inv_maintained.2.1 sample_session 1 500000 (by decide)
/-- C2: when the detection timer fires on a session in Init or Up, the
session goes Down with diagnostic "Time expired", the remote fields are
zeroed (`rem_state` being set to Down), and `rem_min_rx_int` is forced to 1
so that the TX timer may run again (it is indeed armed unless the session
is passive, whose remote id is now unknown). -/
theorem timeout_resets_session (s : Session) (now : Nat)
    (hstate : s.loc_state = BFD_STATE_INIT ∨ s.loc_state = BFD_STATE_UP)
    (hnow : now ≠ 0) :
    (bfd_session_timeout s now).loc_state = BFD_STATE_DOWN ∧
    (bfd_session_timeout s now).loc_diag = BFD_DIAG_TIMEOUT ∧
    (bfd_session_timeout s now).rem_state = BFD_STATE_DOWN ∧
    (bfd_session_timeout s now).rem_id = 0 ∧
    (bfd_session_timeout s now).rem_min_tx_int = 0 ∧
    (bfd_session_timeout s now).rem_demand_mode = false ∧
    (bfd_session_timeout s now).rem_detect_mult = 0 ∧
    (bfd_session_timeout s now).rem_min_rx_int = 1 ∧
    (s.passive = false → tm_active (bfd_session_timeout s now).tx_timer = true) := by
  have hne : (BFD_STATE_DOWN = s.loc_state) = False := by
    rcases hstate with h | h <;>
      simp [h, BFD_STATE_DOWN, BFD_STATE_INIT, BFD_STATE_UP]
  refine ⟨?_, ?_, ?_, ?_, ?_, ?_, ?_, ?_, ?_⟩ <;>
    simp [bfd_session_timeout, hne]
  intro hp
  simp [bfd_session_control_tx_timer, hp, hne, tm_active, tm_start, tm_set, hnow]

theorem timeout_resets_session_witness :
    (bfd_session_timeout sample_up_session 7).loc_state = BFD_STATE_DOWN ∧
    (bfd_session_timeout sample_up_session 7).loc_diag = BFD_DIAG_TIMEOUT ∧
    (bfd_session_timeout sample_up_session 7).rem_state = BFD_STATE_DOWN ∧
    (bfd_session_timeout sample_up_session 7).rem_id = 0 ∧
    (bfd_session_timeout sample_up_session 7).rem_min_tx_int = 0 ∧
    (bfd_session_timeout sample_up_session 7).rem_demand_mode = false ∧
    (bfd_session_timeout sample_up_session 7).rem_detect_mult = 0 ∧
    (bfd_session_timeout sample_up_session 7).rem_min_rx_int = 1 ∧
    (sample_up_session.passive = false →
      tm_active (bfd_session_timeout sample_up_session 7).tx_timer = true) :=
  timeout_resets_session sample_up_session 7 (by decide) (by decide)
/-- C6 counterexample: for `T = max(des_min_tx_int, rem_min_rx_int) = 11`
and `last_tx = 100`, the top of the scheduled fire window is `110`, i.e.
10 µs after the previous TX, which exceeds the claimed `0.90·T = 9.9` µs
bound (`10·(110−100) ≤ 9·11` fails), so the window does not lie within
`[0.75·T, 0.90·T]` for every u32 value of `T`. -/
theorem tx_schedule_window_cex :
    (bfd_session_update_tx_interval c6_session).tx_timer.expires
      + (bfd_session_update_tx_interval c6_session).tx_timer.randomize = 110 ∧
    ¬ (10 * (110 - 100) ≤ 9 * 11) := by decide

/-- C6 (amended): with `T = max(des_min_tx_int, rem_min_rx_int)` and a
recorded previous transmit time, the next fire is scheduled in
`[last_tx + (T − ⌊T/4⌋), last_tx + (T − ⌊T/10⌋)]`, whose endpoints are the
integer ceilings `⌈0.75·T⌉` and `⌈0.90·T⌉`; the upper endpoint equals the
spec's 90 % bound exactly when 10 divides `T` and otherwise exceeds it by
less than one microsecond. -/
theorem tx_schedule_window (s : Session) (h : s.last_tx ≠ 0) :
    ((bfd_session_update_tx_interval s).tx_timer.expires
        = s.last_tx + (max s.des_min_tx_int s.rem_min_rx_int
            - max s.des_min_tx_int s.rem_min_rx_int / 4)) ∧
    ((bfd_session_update_tx_interval s).tx_timer.expires
        + (bfd_session_update_tx_interval s).tx_timer.randomize
        = s.last_tx + (max s.des_min_tx_int s.rem_min_rx_int
            - max s.des_min_tx_int s.rem_min_rx_int / 10)) ∧
    (∀ T : Nat,
        3 * T ≤ 4 * (T - T / 4) ∧ 4 * (T - T / 4) < 3 * T + 4 ∧
        9 * T ≤ 10 * (T - T / 10) ∧ 10 * (T - T / 10) < 9 * T + 10 ∧
        (T % 10 = 0 → 10 * (T - T / 10) = 9 * T)) := by
  refine ⟨?_, ?_, ?_⟩
  · simp [bfd_session_update_tx_interval, h, tm_set]
  · simp only [bfd_session_update_tx_interval]
    rw [if_neg h]
    have h4 := Nat.div_add_mod (max s.des_min_tx_int s.rem_min_rx_int) 4
    have h10 := Nat.div_add_mod (max s.des_min_tx_int s.rem_min_rx_int) 10
    have m4 := Nat.mod_lt (max s.des_min_tx_int s.rem_min_rx_int) (show 0 < 4 by omega)
    have m10 := Nat.mod_lt (max s.des_min_tx_int s.rem_min_rx_int) (show 0 < 10 by omega)
    simp only [tm_set]
    omega
  · intro T
    have h4 := Nat.div_add_mod T 4
    have h10 := Nat.div_add_mod T 10
    have m4 := Nat.mod_lt T (show 0 < 4 by omega)
    have m10 := Nat.mod_lt T (show 0 < 10 by omega)
    omega

theorem tx_schedule_window_witness :
    (bfd_session_update_tx_interval c6_session).tx_timer.expires
        = c6_session.last_tx + (max c6_session.des_min_tx_int c6_session.rem_min_rx_int
            - max c6_session.des_min_tx_int c6_session.rem_min_rx_int / 4) ∧
    ((bfd_session_update_tx_interval c6_session).tx_timer.expires
        + (bfd_session_update_tx_interval c6_session).tx_timer.randomize
        = c6_session.last_tx + (max c6_session.des_min_tx_int c6_session.rem_min_rx_int
            - max c6_session.des_min_tx_int c6_session.rem_min_rx_int / 10)) ∧
    (∀ T : Nat,
        3 * T ≤ 4 * (T - T / 4) ∧ 4 * (T - T / 4) < 3 * T + 4 ∧
        9 * T ≤ 10 * (T - T / 10) ∧ 10 * (T - T / 10) < 9 * T + 10 ∧
        (T % 10 = 0 → 10 * (T - T / 10) = 9 * T)) :=
  tx_schedule_window c6_session (by decide)
@[simp] theorem terminate_poll_poll_active (s : Session) :
    (bfd_session_terminate_poll s).poll_active = s.poll_scheduled := by
  unfold bfd_session_terminate_poll
  dsimp only
  split <;> split <;> rfl

@[simp] theorem terminate_poll_poll_scheduled (s : Session) :
    (bfd_session_terminate_poll s).poll_scheduled = 0 := rfl

/-- C3: on a session with an active poll, a processed packet carrying the
Final flag commits the stashed interval values exactly for the bits of
`poll_active` not also in `poll_scheduled` (the two-bit `u8` masks), then
moves the scheduled bits into a fresh active poll; and on a session with
`rem_id == 0` requesting a poll never activates one (it does not even record
the request). -/
theorem poll_commit (s : Session) (now flags otx orx : Nat) :
    (s.poll_active < 4 → s.poll_scheduled < 4 →
      ((s.poll_active &&& BFD_POLL_TX ≠ 0 ∧ s.poll_scheduled &&& BFD_POLL_TX = 0 →
          (bfd_session_terminate_poll s).des_min_tx_int = s.des_min_tx_new) ∧
       (¬ (s.poll_active &&& BFD_POLL_TX ≠ 0 ∧ s.poll_scheduled &&& BFD_POLL_TX = 0) →
          (bfd_session_terminate_poll s).des_min_tx_int = s.des_min_tx_int) ∧
       (s.poll_active &&& BFD_POLL_RX ≠ 0 ∧ s.poll_scheduled &&& BFD_POLL_RX = 0 →
          (bfd_session_terminate_poll s).req_min_rx_int = s.req_min_rx_new) ∧
       (¬ (s.poll_active &&& BFD_POLL_RX ≠ 0 ∧ s.poll_scheduled &&& BFD_POLL_RX = 0) →
          (bfd_session_terminate_poll s).req_min_rx_int = s.req_min_rx_int))) ∧
    ((bfd_session_terminate_poll s).poll_active = s.poll_scheduled ∧
     (bfd_session_terminate_poll s).poll_scheduled = 0) ∧
    (s.loc_state = BFD_STATE_UP → s.rem_state = BFD_STATE_UP →
      s.poll_active ≠ 0 → flags &&& BFD_FLAG_FINAL ≠ 0 →
      ((bfd_session_process_ctl s now flags otx orx).des_min_tx_int
          = (bfd_session_terminate_poll s).des_min_tx_int ∧
       (bfd_session_process_ctl s now flags otx orx).req_min_rx_int
          = (bfd_session_terminate_poll s).req_min_rx_int ∧
       (bfd_session_process_ctl s now flags otx orx).poll_active = s.poll_scheduled ∧
       (bfd_session_process_ctl s now flags otx orx).poll_scheduled = 0)) ∧
    (s.rem_id = 0 → ∀ r, bfd_session_request_poll s now r = s) := by
  refine ⟨?_, ?_, ?_, ?_⟩
  · intro ha hb
    have hpa : s.poll_active = 0 ∨ s.poll_active = 1 ∨ s.poll_active = 2
        ∨ s.poll_active = 3 := by omega
    have hpb : s.poll_scheduled = 0 ∨ s.poll_scheduled = 1 ∨ s.poll_scheduled = 2
        ∨ s.poll_scheduled = 3 := by omega
    rcases hpa with h1 | h1 | h1 | h1 <;> rcases hpb with h2 | h2 | h2 | h2 <;>
      simp +decide [bfd_session_terminate_poll, h1, h2, BFD_POLL_TX, BFD_POLL_RX]
  · exact ⟨terminate_poll_poll_active s, terminate_poll_poll_scheduled s⟩
  · intro h1 h2 h3 h4
    simp [bfd_session_process_ctl, h1, h2, h3, h4,
      apply_ite Session.des_min_tx_int, apply_ite Session.req_min_rx_int,
      apply_ite Session.poll_active, apply_ite Session.poll_scheduled,
      apply_ite Session.loc_state, apply_ite Session.rem_state,
      BFD_STATE_ADMIN_DOWN, BFD_STATE_DOWN, BFD_STATE_INIT, BFD_STATE_UP]
  · intro h r
    unfold bfd_session_request_poll
    rw [if_pos h]

theorem poll_commit_witness :
    (bfd_session_terminate_poll c3_session).des_min_tx_int = c3_session.des_min_tx_new ∧
    (bfd_session_process_ctl c3_session 1 48 0 0).poll_scheduled = 0 :=
  ⟨((poll_commit c3_session 1 48 0 0).1 (by decide) (by decide)).1 ⟨by decide, by decide⟩,
   ((poll_commit c3_session 1 48 0 0).2.2.1 (by decide) (by decide) (by decide)
      (by decide)).2.2.2⟩
/-- C1 counterexample: a session in Down that observes a remote state of Up
stays in Down — `bfd_session_process_ctl` moves Down to Up only on a remote
state of Init — refuting the claimed transition "from Down, rem Init or Up
yields Up". -/
theorem transition_table_cex :
    c1_session.loc_state = BFD_STATE_DOWN ∧
    c1_session.rem_state = BFD_STATE_UP ∧
    (bfd_session_process_ctl c1_session 1 0 c1_session.des_min_tx_int
        c1_session.rem_min_rx_int).loc_state = BFD_STATE_DOWN ∧
    BFD_STATE_DOWN ≠ BFD_STATE_UP := by decide

/-- C1 (amended): the transition table of `bfd_session_process_ctl`: in
AdminDown nothing changes; from Down, rem Down yields Init with diag None,
rem Init yields Up with diag None, and rem Up yields no change; from Init,
rem AdminDown yields Down with diag NeighborDown and rem Init or Up yields
Up with diag None; from Up, rem AdminDown or Down yields Down with diag
NeighborDown, and rem Init or Up yields no change. -/
theorem transition_table (s : Session) (now flags otx orx : Nat) :
    (s.loc_state = BFD_STATE_ADMIN_DOWN →
      (bfd_session_process_ctl s now flags otx orx).loc_state = s.loc_state ∧
      (bfd_session_process_ctl s now flags otx orx).loc_diag = s.loc_diag) ∧
    (s.loc_state = BFD_STATE_DOWN ∧ s.rem_state = BFD_STATE_DOWN →
      (bfd_session_process_ctl s now flags otx orx).loc_state = BFD_STATE_INIT ∧
      (bfd_session_process_ctl s now flags otx orx).loc_diag = BFD_DIAG_NOTHING) ∧
    (s.loc_state = BFD_STATE_DOWN ∧ s.rem_state = BFD_STATE_INIT →
      (bfd_session_process_ctl s now flags otx orx).loc_state = BFD_STATE_UP ∧
      (bfd_session_process_ctl s now flags otx orx).loc_diag = BFD_DIAG_NOTHING) ∧
    (s.loc_state = BFD_STATE_DOWN ∧ s.rem_state = BFD_STATE_UP →
      (bfd_session_process_ctl s now flags otx orx).loc_state = s.loc_state ∧
      (bfd_session_process_ctl s now flags otx orx).loc_diag = s.loc_diag) ∧
    (s.loc_state = BFD_STATE_INIT ∧ s.rem_state = BFD_STATE_ADMIN_DOWN →
      (bfd_session_process_ctl s now flags otx orx).loc_state = BFD_STATE_DOWN ∧
      (bfd_session_process_ctl s now flags otx orx).loc_diag = BFD_DIAG_NEIGHBOR_DOWN) ∧
    (s.loc_state = BFD_STATE_INIT ∧ (s.rem_state = BFD_STATE_INIT ∨ s.rem_state = BFD_STATE_UP) →
      (bfd_session_process_ctl s now flags otx orx).loc_state = BFD_STATE_UP ∧
      (bfd_session_process_ctl s now flags otx orx).loc_diag = BFD_DIAG_NOTHING) ∧
    (s.loc_state = BFD_STATE_UP ∧ (s.rem_state = BFD_STATE_ADMIN_DOWN ∨ s.rem_state = BFD_STATE_DOWN) →
      (bfd_session_process_ctl s now flags otx orx).loc_state = BFD_STATE_DOWN ∧
      (bfd_session_process_ctl s now flags otx orx).loc_diag = BFD_DIAG_NEIGHBOR_DOWN) ∧
    (s.loc_state = BFD_STATE_UP ∧ (s.rem_state = BFD_STATE_INIT ∨ s.rem_state = BFD_STATE_UP) →
      (bfd_session_process_ctl s now flags otx orx).loc_state = s.loc_state ∧
      (bfd_session_process_ctl s now flags otx orx).loc_diag = s.loc_diag) := by
  refine ⟨?_, ?_, ?_, ?_, ?_, ?_, ?_, ?_⟩
  · intro h
    simp +decide [bfd_session_process_ctl, h,
      apply_ite Session.loc_state, apply_ite Session.loc_diag, apply_ite Session.rem_state,
      BFD_STATE_ADMIN_DOWN, BFD_STATE_DOWN, BFD_STATE_INIT, BFD_STATE_UP,
      BFD_DIAG_NOTHING, BFD_DIAG_NEIGHBOR_DOWN]
  all_goals
    rintro ⟨hL, hR⟩
  case _ | _ | _ | _ =>
    simp +decide [bfd_session_process_ctl, hL, hR,
      apply_ite Session.loc_state, apply_ite Session.loc_diag, apply_ite Session.rem_state,
      BFD_STATE_ADMIN_DOWN, BFD_STATE_DOWN, BFD_STATE_INIT, BFD_STATE_UP,
      BFD_DIAG_NOTHING, BFD_DIAG_NEIGHBOR_DOWN]
  all_goals
    rcases hR with hR | hR <;>
      simp +decide [bfd_session_process_ctl, hL, hR,
        apply_ite Session.loc_state, apply_ite Session.loc_diag, apply_ite Session.rem_state,
        BFD_STATE_ADMIN_DOWN, BFD_STATE_DOWN, BFD_STATE_INIT, BFD_STATE_UP,
        BFD_DIAG_NOTHING, BFD_DIAG_NEIGHBOR_DOWN]

theorem transition_table_witness :
    (bfd_session_process_ctl sample_session 1 0 0 0).loc_state = BFD_STATE_INIT ∧
    (bfd_session_process_ctl sample_session 1 0 0 0).loc_diag = BFD_DIAG_NOTHING :=
  (transition_table sample_session 1 0 0 0).2.1 ⟨by decide, by decide⟩
theorem request_free_running (r : Nat) (st : NotifyState) :
    (bfd_request_free r st).notify_running = st.notify_running := by
  unfold bfd_request_free
  dsimp only
  split <;> rfl

theorem request_free_list (r : Nat) (st : NotifyState) :
    (bfd_request_free r st).request_list = st.request_list.erase r := by
  unfold bfd_request_free
  dsimp only
  split <;> rfl

theorem request_free_destroyed_of_running (r : Nat) (st : NotifyState)
    (h : st.notify_running = true) :
    (bfd_request_free r st).session_destroyed = st.session_destroyed := by
  unfold bfd_request_free
  dsimp only
  split
  · next hc => simp [h] at hc
  · rfl

theorem notify_walk_running (rel : Nat → Bool) (l : List Nat) (st : NotifyState) :
    (bfd_notify_walk rel l st).notify_running = st.notify_running := by
  induction l generalizing st with
  | nil => rfl
  | cons r rest ih =>
    unfold bfd_notify_walk
    rw [ih]
    split <;> simp [request_free_running]

theorem notify_walk_destroyed (rel : Nat → Bool) (l : List Nat) (st : NotifyState)
    (h : st.notify_running = true) :
    (bfd_notify_walk rel l st).session_destroyed = st.session_destroyed := by
  induction l generalizing st with
  | nil => rfl
  | cons r rest ih =>
    unfold bfd_notify_walk
    split
    · rw [ih _ (by rw [request_free_running]; exact h)]
      exact request_free_destroyed_of_running r st h
    · exact ih _ h

theorem notify_walk_list (rel : Nat → Bool) (l : List Nat) (st : NotifyState) :
    (bfd_notify_walk rel l st).request_list
      = l.foldl (fun acc r => if rel r then acc.erase r else acc) st.request_list := by
  induction l generalizing st with
  | nil => rfl
  | cons r rest ih =>
    unfold bfd_notify_walk
    rw [List.foldl_cons]
    split <;> (rw [ih]; try simp [request_free_list])

theorem fold_free_list (l : List Nat) (st : NotifyState) :
    (l.foldl (fun st r => bfd_request_free r st) st).request_list
      = l.foldl (fun acc r => acc.erase r) st.request_list := by
  induction l generalizing st with
  | nil => rfl
  | cons r rest ih =>
    rw [List.foldl_cons, List.foldl_cons, ih]
    simp [request_free_list]

theorem foldl_erase_filter (rel : Nat → Bool) (l : List Nat) (x : List Nat) :
    l.foldl (fun acc r => if rel r then acc.erase r else acc) x
      = (l.filter rel).foldl (fun acc r => acc.erase r) x := by
  induction l generalizing x with
  | nil => rfl
  | cons r rest ih =>
    rw [List.foldl_cons, List.filter_cons]
    by_cases h : rel r <;> simp [h, ih]

theorem fold_free_destroyed (l : List Nat) (st : NotifyState)
    (hrun : st.notify_running = false)
    (hinv : st.session_destroyed = st.request_list.isEmpty) :
    (l.foldl (fun st r => bfd_request_free r st) st).session_destroyed
      = ((l.foldl (fun st r => bfd_request_free r st) st).request_list).isEmpty := by
  induction l generalizing st with
  | nil => exact hinv
  | cons r rest ih =>
    rw [List.foldl_cons]
    refine ih _ (by rw [request_free_running]; exact hrun) ?_
    unfold bfd_request_free
    dsimp only
    split
    · next hc => simp [hc.1]
    · next hc =>
      rw [not_and_or] at hc
      rcases hc with hc | hc
      · cases hl : st.request_list with
        | nil => simp [hl] at hc
        | cons a as =>
          rw [hinv, hl]
          simpa using (by simpa [hl] using hc)
      · exact absurd hrun hc

/-- C8: releasing a request from inside its own notification callback is
equivalent to releasing it after the callbacks have run: the remaining
request list and the session-destruction outcome agree; the release is a
total operation; and during the callback walk `notify_running` suppresses
destruction, the notifier destroying the emptied session only after the
iteration over that session's requests completes. -/
theorem release_in_callback (rel : Nat → Bool) (reqs : List Nat) (h : reqs ≠ []) :
    (bfd_notify_hook_session rel reqs).request_list
      = (bfd_notify_release_after rel reqs).request_list ∧
    (bfd_notify_hook_session rel reqs).session_destroyed
      = (bfd_notify_release_after rel reqs).session_destroyed ∧
    (bfd_notify_walk rel reqs
        { request_list := reqs, notify_running := true,
          session_destroyed := false }).session_destroyed = false := by
  have hAlist : (bfd_notify_hook_session rel reqs).request_list
      = reqs.foldl (fun acc r => if rel r then acc.erase r else acc) reqs := by
    unfold bfd_notify_hook_session
    dsimp only
    split <;> simp [notify_walk_list]
  have hBlist : (bfd_notify_release_after rel reqs).request_list
      = reqs.foldl (fun acc r => if rel r then acc.erase r else acc) reqs := by
    unfold bfd_notify_release_after
    rw [fold_free_list, foldl_erase_filter]
  have hwalkd : (bfd_notify_walk rel reqs
      { request_list := reqs, notify_running := true,
        session_destroyed := false }).session_destroyed = false :=
    notify_walk_destroyed rel reqs _ rfl
  have hAdest : (bfd_notify_hook_session rel reqs).session_destroyed
      = ((bfd_notify_hook_session rel reqs).request_list).isEmpty := by
    unfold bfd_notify_hook_session
    dsimp only
    split <;> simp_all
  have hBdest : (bfd_notify_release_after rel reqs).session_destroyed
      = ((bfd_notify_release_after rel reqs).request_list).isEmpty := by
    unfold bfd_notify_release_after
    exact fold_free_destroyed _ _ rfl (by simpa using h)
  refine ⟨hAlist.trans hBlist.symm, ?_, hwalkd⟩
  rw [hAdest, hBdest, hAlist, hBlist]

theorem release_in_callback_witness :
    (bfd_notify_hook_session (fun r => r == 2) [2, 5]).request_list
      = (bfd_notify_release_after (fun r => r == 2) [2, 5]).request_list ∧
    (bfd_notify_hook_session (fun r => r == 2) [2, 5]).session_destroyed
      = (bfd_notify_release_after (fun r => r == 2) [2, 5]).session_destroyed ∧
    (bfd_notify_walk (fun r => r == 2) [2, 5]
        { request_list := [2, 5], notify_running := true,
          session_destroyed := false }).session_destroyed = false :=
  release_in_callback (fun r => r == 2) [2, 5] (by decide)

end BFD
